import Mathlib

/-!
# Verification of the go-bgpstuff.net client library

Shallow embedding of `src/bgpstuff.go` (together with the response model file
of the repository).  HTTP transport, status checking and JSON decoding are the
environment and are abstracted as a network oracle; every operation returns,
next to its Go result, the list of requests it issued, so that "performs no
network I/O" is the statement that this list is empty.

Functions of the Go standard library and of the external `bogons` dependency
(neither is code of this repository) are modelled from the specification; each
such definition carries a doc comment starting `Modelled from the spec:`.
-/

namespace BGPStuff

/-! ## Go standard-library primitives (modelled)

All character-level work is done on `List Char` (reached through
`String.data`) with structural recursion, so that every definition computes
by kernel reduction. -/

/-- Splitting a character list at every occurrence of a separator character
(`strings.Split` on a one-character separator). -/
def splitOnChar (sep : Char) : List Char → List (List Char)
  | [] => [[]]
  | c :: rest =>
    match splitOnChar sep rest with
    | [] => [[]]
    | grp :: grps =>
      if c = sep then [] :: grp :: grps else (c :: grp) :: grps

/-- Splitting a character list at every leftmost, non-overlapping occurrence
of `"::"` (`strings.Split` on the IPv6 zero-run marker). -/
def splitOnColonColon : List Char → List (List Char)
  | [] => [[]]
  | ':' :: ':' :: rest => [] :: splitOnColonColon rest
  | c :: rest =>
    match splitOnColonColon rest with
    | [] => [[]]
    | grp :: grps => (c :: grp) :: grps

/-- Joining character groups with a separator character (the inverse of
`splitOnChar`, used only to render canonical address text). -/
def joinWithChar (sep : Char) : List (List Char) → List Char
  | [] => []
  | [g] => g
  | g :: gs => g ++ sep :: joinWithChar sep gs

/-- Decimal reading of a digit group: `some value` when the group is
nonempty and all characters are decimal digits, otherwise `none`. -/
def decNat? (s : List Char) : Option Nat :=
  if s.length ≥ 1 ∧ s.all Char.isDigit then
    some (s.foldl (fun n c => n * 10 + (c.toNat - 48)) 0)
  else none

/-- Reading of a hexadecimal group of one to four digits, as in an IPv6
address, `none` on anything else. -/
def hexVal? (s : List Char) : Option Nat :=
  if 1 ≤ s.length ∧ s.length ≤ 4 ∧
      s.all (fun c => c.isDigit ∨ ('a' ≤ c ∧ c ≤ 'f') ∨ ('A' ≤ c ∧ c ≤ 'F')) then
    some (s.foldl (fun n c =>
      n * 16 + (if c.isDigit then c.toNat - 48
                else if 'a' ≤ c then c.toNat - 87 else c.toNat - 55)) 0)
  else none

/-- Dotted-quad IPv4 reading: four groups of one to three decimal digits,
each at most 255; returns the four octets. -/
def parseIPv4 (s : List Char) : Option (List Nat) :=
  let parts := splitOnChar '.' s
  if parts.length = 4 ∧
      parts.all (fun p => 1 ≤ p.length ∧ p.length ≤ 3 ∧ p.all Char.isDigit) then
    let octets := parts.map (fun p => (decNat? p).getD 0)
    if octets.all (· ≤ 255) then some octets else none
  else none

/-- Reads a colon-separated run of hexadecimal groups. -/
def parseHextets : List (List Char) → Option (List Nat)
  | [] => some []
  | p :: rest =>
    match hexVal? p, parseHextets rest with
    | some v, some l => some (v :: l)
    | _, _ => none

/-- IPv6 reading: eight hexadecimal groups, with at most one `::` zero-run
abbreviation; returns the eight hextets. -/
def parseIPv6 (s : List Char) : Option (List Nat) :=
  match splitOnColonColon s with
  | [whole] =>
    match parseHextets (splitOnChar ':' whole) with
    | some l => if l.length = 8 then some l else none
    | none => none
  | [l, r] =>
    let ls := if l = [] then [] else splitOnChar ':' l
    let rs := if r = [] then [] else splitOnChar ':' r
    match parseHextets ls, parseHextets rs with
    | some lv, some rv =>
      if lv.length + rv.length ≤ 7 then
        some (lv ++ List.replicate (8 - lv.length - rv.length) 0 ++ rv)
      else none
    | _, _ => none
  | _ => none

/-- The 32-bit value of four IPv4 octets. -/
def ipv4Value : List Nat → Nat
  | [a, b, c, d] => ((a * 256 + b) * 256 + c) * 256 + d
  | _ => 0

/-- The 128-bit value of eight IPv6 hextets. -/
def ipv6Value (h : List Nat) : Nat :=
  h.foldl (fun n v => n * 65536 + v) 0

/-- Whether four octets lie in the public IPv4 unicast space: rejects the
unspecified, loopback, private, shared-address, link-local, benchmarking,
documentation, multicast and reserved ranges. -/
def publicIPv4 : List Nat → Bool
  | [a, b, c, _] =>
    ¬ (a = 0 ∨ a = 10 ∨ a = 127 ∨
       (a = 100 ∧ 64 ≤ b ∧ b ≤ 127) ∨
       (a = 169 ∧ b = 254) ∨
       (a = 172 ∧ 16 ≤ b ∧ b ≤ 31) ∨
       (a = 192 ∧ b = 0 ∧ (c = 0 ∨ c = 2)) ∨
       (a = 192 ∧ b = 88 ∧ c = 99) ∨
       (a = 192 ∧ b = 168) ∨
       (a = 198 ∧ (b = 18 ∨ b = 19)) ∨
       (a = 198 ∧ b = 51 ∧ c = 100) ∨
       (a = 203 ∧ b = 0 ∧ c = 113) ∨
       a ≥ 224)
  | _ => false

/-- Whether eight hextets lie in the public IPv6 unicast space: the global
unicast block 2000::/3 minus the documentation block 2001:db8::/32. -/
def publicIPv6 : List Nat → Bool
  | h0 :: h1 :: _ =>
    0x2000 ≤ h0 ∧ h0 ≤ 0x3fff ∧ ¬ (h0 = 0x2001 ∧ h1 = 0xdb8)
  | _ => false

namespace bogons

/-- Modelled from the spec: `bogons.ValidPublicIP` of the external bogons
dependency (not under src/): "accepts only syntactically valid,
public-unicast-range addresses (IPv4 or IPv6); rejects private, reserved,
multicast, and unparsable input" (spec §4.3). -/
def ValidPublicIP (ip : String) : Bool :=
  match parseIPv4 ip.data with
  | some o => publicIPv4 o
  | none =>
    match parseIPv6 ip.data with
    | some h => publicIPv6 h
    | none => false

/-- Modelled from the spec: `bogons.ValidPublicASN` of the external bogons
dependency (not under src/): "accepts only nonzero ASNs within the valid
public/global ASN number space (up to the 32-bit range), rejecting reserved
blocks" (spec §4.3).  The reserved blocks here are AS_TRANS 23456, the
16-bit documentation and private block 64496–131071, and everything from
4200000000 upward (private use and reserved). -/
def ValidPublicASN (asn : Nat) : Bool :=
  asn ≠ 0 ∧ asn ≠ 23456 ∧ ¬ (64496 ≤ asn ∧ asn ≤ 131071) ∧ asn < 4200000000

end bogons

/-- The Go conversion `uint32(asn)` applied to a (64-bit) `int`: truncation
to the low 32 bits, that is, the value of `asn` modulo `2^32`. -/
def goUint32 (x : Int) : Nat := (x % (2 ^ 32 : Int)).toNat

/-- Modelled from the spec: Go `strconv.Atoi` (stdlib): parses an optionally
signed decimal integer, giving the value paired with a success flag.  A
syntactically invalid string gives `(0, false)`; a decimal that overflows the
64-bit range gives the clamped extreme value with `false`; otherwise the
value with `true`.  The source discards the flag (`i, _ := strconv.Atoi(v)`). -/
def goAtoi (s : String) : Int × Bool :=
  match s.data with
  | [] => (0, false)
  | c :: rest =>
    match decNat? (if c = '-' ∨ c = '+' then rest else c :: rest) with
    | none => (0, false)
    | some n =>
      if (if c = '-' then -(n : Int) else (n : Int)) < -(2 ^ 63) then
        (-(2 ^ 63), false)
      else if (if c = '-' then -(n : Int) else (n : Int)) > 2 ^ 63 - 1 then
        (2 ^ 63 - 1, false)
      else ((if c = '-' then -(n : Int) else (n : Int)), true)

/-- A parsed network (the Go `*net.IPNet` resulting from `net.ParseCIDR`):
bit width (32 or 128), the address value masked to the mask length, and the
mask length. -/
structure IPNet where
  bits : Nat
  addr : Nat
  maskLen : Nat
deriving DecidableEq, Repr

deriving instance DecidableEq for Except

/-- Masking an address value of width `bits` down to its first `m` bits. -/
def maskValue (bits v m : Nat) : Nat :=
  v / 2 ^ (bits - m) * 2 ^ (bits - m)

/-- Modelled from the spec: Go `net.ParseCIDR` (stdlib): reads `"addr/len"`
into the network prefix — the address masked to `len` bits; a malformed CIDR
string is an error carrying the offending string. -/
def goParseCIDR (s : String) : Except String IPNet :=
  match splitOnChar '/' s.data with
  | [a, m] =>
    match decNat? m, parseIPv4 a with
    | some mlen, some o =>
      if mlen ≤ 32 then .ok ⟨32, maskValue 32 (ipv4Value o) mlen, mlen⟩
      else .error s
    | some mlen, none =>
      match parseIPv6 a with
      | some h =>
        if mlen ≤ 128 then .ok ⟨128, maskValue 128 (ipv6Value h) mlen, mlen⟩
        else .error s
      | none => .error s
    | none, _ => .error s
  | _ => .error s

/-- Modelled from the spec: Go `net.ParseIP(ip)` followed by `String()`
(stdlib): the canonical text of the parsed address, `"<nil>"` when
unparsable.  (Go's zero-run compression of the IPv6 rendering is not
reproduced; no claim constrains the rendered text.) -/
def goParseIPString (ip : String) : String :=
  match parseIPv4 ip.data with
  | some o => String.mk (joinWithChar '.' (o.map (Nat.toDigits 10)))
  | none =>
    match parseIPv6 ip.data with
    | some h => String.mk (joinWithChar ':' (h.map (Nat.toDigits 16)))
    | none => "<nil>"

/-! ## The response envelope (the repository's response model file) -/

/-- `Sourced` contains the amount of IPv4 and IPv6 prefixes, as well as the
prefixes. -/
structure Sourced where
  Ipv4 : Int
  Ipv6 : Int
  Prefixes : List String
deriving DecidableEq, Repr

/-- `Totals` contains the amount of IPv4 and IPv6 prefixes in the RIB, also
the unix timestamp. -/
structure Totals where
  Ipv4 : Int
  Ipv6 : Int
  Time : Nat
deriving DecidableEq, Repr

/-- `Location` contains the coordinates and map of the ingress location. -/
structure Location where
  Lat : String
  Long : String
  City : String
  Country : String
  Map : String
deriving DecidableEq, Repr

/-- `Invalids` contains all the ROA invalid prefixes originated by an ASN
(the ASN arrives as a JSON string and is decoded to an int). -/
structure Invalids where
  ASN : Int
  Prefixes : List String
deriving DecidableEq, Repr

/-- `ASNumName` contains an AS number (uint32), name, and locale. -/
structure ASNumName where
  ASN : Nat
  ASName : String
  ASLocale : String
deriving DecidableEq, Repr

/-- `data` is the struct received on each successful query; only the fields
relevant to the issued handler are meaningfully populated.  (`CacheTime`,
a `time.Time`, is modelled as a unix timestamp.) -/
structure data where
  Action : String
  Route : String
  ASPath : List String
  ASSet : List String
  Origin : Int
  ROA : String
  ASName : String
  ASLocale : String
  ASNames : List ASNumName
  Invalids : List BGPStuff.Invalids
  Sourced : BGPStuff.Sourced
  Location : BGPStuff.Location
  Totals : BGPStuff.Totals
  IP : String
  Exists : Bool
  CacheTime : Nat
deriving DecidableEq, Repr

/-- The decoded JSON envelope: `{"Response": {...}}`. -/
structure response where
  Data : data
deriving DecidableEq, Repr

/-! ## Go maps, errors, and the network environment -/

/-- Lookup in a Go map modelled as an association list. -/
def assocLookup {α : Type} : List (Int × α) → Int → Option α
  | [], _ => none
  | (k, v) :: rest, key => if k = key then some v else assocLookup rest key

/-- Insert-or-replace in a Go map modelled as an association list. -/
def assocInsert {α : Type} : List (Int × α) → Int → α → List (Int × α)
  | [], k, v => [(k, v)]
  | (k', v') :: rest, k, v =>
    if k' = k then (k, v) :: rest else (k', v') :: assocInsert rest k v

/-- Go `len` on a possibly nil map (`none` models the nil map). -/
def goMapLen {α : Type} : Option (List (Int × α)) → Nat
  | none => 0
  | some m => m.length

/-- Go map indexing `m[k]` on a possibly nil map: `some v` when the key is
present (found flag true), `none` otherwise (zero value, found flag false). -/
def goMapLookup {α : Type} : Option (List (Int × α)) → Int → Option α
  | none, _ => none
  | some m, k => assocLookup m k

/-- The failure values an operation can surface (Go `error` values of the
source). -/
inductive GoError where
  /-- `errInvalidIP` -/
  | invalidIP
  /-- `errInvalidASN` -/
  | invalidASN
  /-- any failure inside `getRequest`: transport error, non-200 status, or
  JSON decode failure, with its message -/
  | getRequestError (msg : String)
  /-- a `net.ParseCIDR` failure, carrying the malformed CIDR string -/
  | cidrParseError (s : String)
  /-- "Unable to parse origin AS number" -/
  | unparsableOrigin
  /-- "invalids is empty, run GetInvalids() first" -/
  | invalidsEmpty
deriving DecidableEq, Repr

/-- The environment of one call: what the HTTP round trip plus JSON decoding
of `getRequest` produces for a given list of path segments. -/
abbrev Net := List String → Except GoError response

/-- `Client` is a client to the bgpstuff.net REST API; the two reference
caches are Go maps that start out nil (`none`). -/
structure Client where
  Loc : String
  ASNames : Option (List (Int × String))
  Invalids : Option (List (Int × List IPNet))
deriving DecidableEq

/-- `NewBGPClient` returns a new client (zero value: nil caches). -/
def NewBGPClient : Client := ⟨"", none, none⟩

/-- Embedding of `getRequest`: joins the path segments into one request, lets
the environment answer it, and records the single request issued; an oracle
error stands for a transport, status, or decode failure of the round trip. -/
def Client.getRequest (_ : Client) (net : Net) (urls : List String) :
    Except GoError response × List (List String) :=
  (net urls, [urls])

/-! ## Envelope field extraction -/

/-- Embedding of `getExistsFromResponse`. -/
def getExistsFromResponse (res : response) : Bool :=
  res.Data.Exists

/-- Embedding of `getOriginFromResponse`. -/
def getOriginFromResponse (res : response) : Int :=
  res.Data.Origin

/-- Embedding of `getASPathFromResponse`: best-effort integer parsing of the
AS-path and AS-SET string arrays, each entry the result of `strconv.Atoi`
with the error discarded. -/
def getASPathFromResponse (res : response) : List Int × List Int :=
  let path := res.Data.ASPath.map fun v => (goAtoi v).1
  if res.Data.ASSet.length > 0 then
    (path, res.Data.ASSet.map fun v => (goAtoi v).1)
  else
    (path, [])

/-- The prefix-parsing loop shared by `GetInvalids` and `GetSourced`: parses
each CIDR string in order, failing on the first malformed one. -/
def parseCIDRList : List String → Except String (List IPNet)
  | [] => .ok []
  | p :: rest =>
    match goParseCIDR p with
    | .error s => .error s
    | .ok ipnet =>
      match parseCIDRList rest with
      | .error s => .error s
      | .ok l => .ok (ipnet :: l)

/-! ## Lookup operations (src/bgpstuff.go) -/

/-- Embedding of `GetRoute`: the /route handler. -/
def Client.GetRoute (c : Client) (net : Net) (ip : String) :
    (Option IPNet × Bool × Option GoError) × List (List String) :=
  if ¬ bogons.ValidPublicIP ip then ((none, false, some .invalidIP), [])
  else
    match c.getRequest net ["route", goParseIPString ip] with
    | (.error e, log) => ((none, false, some e), log)
    | (.ok resp, log) =>
      let ex := getExistsFromResponse resp
      if ¬ ex then ((none, false, none), log)
      else
        match goParseCIDR resp.Data.Route with
        | .error s => ((none, ex, some (.cidrParseError s)), log)
        | .ok ipnet => ((some ipnet, ex, none), log)

/-- Embedding of `GetOrigin`: the /origin handler. -/
def Client.GetOrigin (c : Client) (net : Net) (ip : String) :
    (Int × Bool × Option GoError) × List (List String) :=
  if ¬ bogons.ValidPublicIP ip then ((0, false, some .invalidIP), [])
  else
    match c.getRequest net ["origin", goParseIPString ip] with
    | (.error e, log) => ((0, false, some e), log)
    | (.ok resp, log) =>
      let ex := getExistsFromResponse resp
      if ¬ ex then ((0, false, none), log)
      else
        let origin := getOriginFromResponse resp
        if origin = 0 then ((0, false, some .unparsableOrigin), log)
        else ((origin, ex, none), log)

/-- Embedding of `GetASPath`: the /aspath handler (`none` renders the nil
slices of the early returns). -/
def Client.GetASPath (c : Client) (net : Net) (ip : String) :
    (Option (List Int) × Option (List Int) × Bool × Option GoError) ×
      List (List String) :=
  if ¬ bogons.ValidPublicIP ip then ((none, none, false, some .invalidIP), [])
  else
    match c.getRequest net ["aspath", goParseIPString ip] with
    | (.error e, log) => ((none, none, false, some e), log)
    | (.ok resp, log) =>
      let ex := getExistsFromResponse resp
      if ¬ ex then ((none, none, false, none), log)
      else
        let (paths, sets) := getASPathFromResponse resp
        ((some paths, some sets, ex, none), log)

/-- Embedding of `GetROA`: the /roa handler. -/
def Client.GetROA (c : Client) (net : Net) (ip : String) :
    (String × Bool × Option GoError) × List (List String) :=
  if ¬ bogons.ValidPublicIP ip then (("", false, some .invalidIP), [])
  else
    match c.getRequest net ["roa", goParseIPString ip] with
    | (.error e, log) => (("", false, some e), log)
    | (.ok resp, log) =>
      let ex := getExistsFromResponse resp
      if ¬ ex then (("", false, none), log)
      else ((resp.Data.ROA, ex, none), log)

/-- Embedding of `GetASName`: the /asname handler; consults the name cache
when `len(c.ASNames) > 1`, otherwise queries the remote service. -/
def Client.GetASName (c : Client) (net : Net) (asn : Int) :
    (String × Bool × Option GoError) × List (List String) :=
  if ¬ bogons.ValidPublicASN (goUint32 asn) then (("", false, some .invalidASN), [])
  else if goMapLen c.ASNames > 1 then
    match goMapLookup c.ASNames asn with
    | some name => ((name, true, none), [])
    | none => (("", false, none), [])
  else
    match c.getRequest net ["asname", toString asn] with
    | (.error e, log) => (("", false, some e), log)
    | (.ok resp, log) =>
      let ex := getExistsFromResponse resp
      if ¬ ex then (("", false, none), log)
      else ((resp.Data.ASName, ex, none), log)

/-- Embedding of `GetASNames`: the /asnames handler; replaces the name cache
with a fresh empty map, then populates it from the bulk response. -/
def Client.GetASNames (c : Client) (net : Net) :
    (Client × Option GoError) × List (List String) :=
  let c' := { c with ASNames := some [] }
  match c'.getRequest net ["asnames"] with
  | (.error e, log) => ((c', some e), log)
  | (.ok resp, log) =>
    let m := resp.Data.ASNames.foldl (fun m v => assocInsert m (v.ASN : Int) v.ASName) []
    (({ c' with ASNames := some m }, none), log)

/-- The population loop of `GetInvalids`: inserts each decoded entry in
order, stopping at the first malformed prefix with the partially built map. -/
def loadInvalids (m : List (Int × List IPNet)) :
    List Invalids → List (Int × List IPNet) × Option GoError
  | [] => (m, none)
  | v :: rest =>
    match parseCIDRList v.Prefixes with
    | .error s => (m, some (.cidrParseError s))
    | .ok l => loadInvalids (assocInsert m v.ASN l) rest

/-- Embedding of `GetInvalids`: the /invalids handler; replaces the invalids
cache with a fresh empty map, then populates it, keeping the partial map when
a CIDR string fails to parse. -/
def Client.GetInvalids (c : Client) (net : Net) :
    (Client × Option GoError) × List (List String) :=
  let c' := { c with Invalids := some [] }
  match c'.getRequest net ["invalids"] with
  | (.error e, log) => ((c', some e), log)
  | (.ok resp, log) =>
    let r := loadInvalids [] resp.Data.Invalids
    (({ c' with Invalids := some r.1 }, r.2), log)

/-- Embedding of `GetInvalid`: the /invalid handler; a pure cache lookup that
never touches the network (it issues no request at all, hence the constant
empty log). -/
def Client.GetInvalid (c : Client) (asn : Int) :
    (Option (List IPNet) × Bool × Option GoError) × List (List String) :=
  if ¬ bogons.ValidPublicASN (goUint32 asn) then ((none, false, some .invalidASN), [])
  else
    match c.Invalids with
    | none => ((none, false, some .invalidsEmpty), [])
    | some m =>
      match assocLookup m asn with
      | some val => ((some val, true, none), [])
      | none => ((none, false, none), [])

/-- Embedding of `GetSourced`: the /sourced handler. -/
def Client.GetSourced (c : Client) (net : Net) (asn : Int) :
    (Option (List IPNet) × Int × Int × Option GoError) × List (List String) :=
  if ¬ bogons.ValidPublicASN (goUint32 asn) then ((none, 0, 0, some .invalidASN), [])
  else
    match c.getRequest net ["sourced", toString asn] with
    | (.error e, log) => ((none, 0, 0, some e), log)
    | (.ok resp, log) =>
      match parseCIDRList resp.Data.Sourced.Prefixes with
      | .error s => ((none, 0, 0, some (.cidrParseError s)), log)
      | .ok l => ((some l, resp.Data.Sourced.Ipv4, resp.Data.Sourced.Ipv6, none), log)

/-- Embedding of `GetTotals`: the /totals handler. -/
def Client.GetTotals (c : Client) (net : Net) :
    (Int × Int × Option GoError) × List (List String) :=
  match c.getRequest net ["totals"] with
  | (.error e, log) => ((0, 0, some e), log)
  | (.ok resp, log) => ((resp.Data.Totals.Ipv4, resp.Data.Totals.Ipv6, none), log)

/-! ## Concrete fixtures used to instantiate the theorems -/

/-- A response whose envelope holds only zero values; in particular its
existence flag is false. -/
def blankResponse : response :=
  ⟨⟨"", "", [], [], 0, "", "", "", [], [], ⟨0, 0, []⟩, ⟨"", "", "", "", ""⟩,
    ⟨0, 0, 0⟩, "", false, 0⟩⟩

/-- An environment in which every request succeeds with the blank envelope. -/
def blankNet : Net := fun _ => .ok blankResponse

/-- An environment in which every round trip fails. -/
def downNet : Net := fun _ => .error (.getRequestError "connection refused")

/-- An existing AS-path answer whose middle entry is not a parsable ASN. -/
def aspathResponse : response :=
  ⟨⟨"", "", ["13335", "junk", "15169"], [], 0, "", "", "", [], [], ⟨0, 0, []⟩,
    ⟨"", "", "", "", ""⟩, ⟨0, 0, 0⟩, "", true, 0⟩⟩

/-- An environment answering every request with `aspathResponse`. -/
def aspathNet : Net := fun _ => .ok aspathResponse

/-- An existing answer whose route string and sourced prefix list are both
malformed CIDR strings. -/
def cidrBadResponse : response :=
  ⟨⟨"", "not-a-cidr", [], [], 0, "", "", "", [], [], ⟨0, 0, ["bad"]⟩,
    ⟨"", "", "", "", ""⟩, ⟨0, 0, 0⟩, "", true, 0⟩⟩

/-- An environment answering every request with `cidrBadResponse`. -/
def cidrBadNet : Net := fun _ => .ok cidrBadResponse

/-- An existing answer whose origin number decoded to 0. -/
def zeroOriginResponse : response :=
  ⟨⟨"", "", [], [], 0, "", "", "", [], [], ⟨0, 0, []⟩, ⟨"", "", "", "", ""⟩,
    ⟨0, 0, 0⟩, "", true, 0⟩⟩

/-- An environment answering every request with `zeroOriginResponse`. -/
def zeroOriginNet : Net := fun _ => .ok zeroOriginResponse

/-- An existing answer whose origin number is 13335. -/
def originResponse : response :=
  ⟨⟨"", "", [], [], 13335, "", "", "", [], [], ⟨0, 0, []⟩, ⟨"", "", "", "", ""⟩,
    ⟨0, 0, 0⟩, "", true, 0⟩⟩

/-- An environment answering every request with `originResponse`. -/
def originNet : Net := fun _ => .ok originResponse

/-! # Claim theorems -/

/-- C1: for every syntactically invalid or non-public IP or ASN input, every
lookup operation taking an IP (GetRoute, GetOrigin, GetASPath, GetROA) or an
ASN (GetASName, GetInvalid, GetSourced) returns the validation error
immediately and performs no network I/O: the request log is empty. -/
theorem validation_fast_fail (c : Client) (net : Net) (ip : String)
    (asn : Int)
    (hip : bogons.ValidPublicIP ip = false)
    (hasn : bogons.ValidPublicASN (goUint32 asn) = false) :
    c.GetRoute net ip = ((none, false, some .invalidIP), []) ∧
    c.GetOrigin net ip = ((0, false, some .invalidIP), []) ∧
    c.GetASPath net ip = ((none, none, false, some .invalidIP), []) ∧
    c.GetROA net ip = (("", false, some .invalidIP), []) ∧
    c.GetASName net asn = (("", false, some .invalidASN), []) ∧
    c.GetInvalid asn = ((none, false, some .invalidASN), []) ∧
    c.GetSourced net asn = ((none, 0, 0, some .invalidASN), []) := by
  refine ⟨?_, ?_, ?_, ?_, ?_, ?_, ?_⟩ <;>
    simp [Client.GetRoute, Client.GetOrigin, Client.GetASPath, Client.GetROA,
      Client.GetASName, Client.GetInvalid, Client.GetSourced, hip, hasn]

/-- C1 witness: the empty string is not a public IP and 0 is not a public
ASN, and the lookups reject them with an empty request log even in an
environment that would answer every request. -/
theorem validation_fast_fail_witness :
    bogons.ValidPublicIP "" = false ∧
    bogons.ValidPublicASN (goUint32 0) = false ∧
    NewBGPClient.GetRoute blankNet "" = ((none, false, some .invalidIP), []) ∧
    NewBGPClient.GetSourced blankNet 0 = ((none, 0, 0, some .invalidASN), []) :=
  ⟨by decide, by decide,
   (validation_fast_fail NewBGPClient blankNet "" 0 (by decide) (by decide)).1,
   (validation_fast_fail NewBGPClient blankNet "" 0 (by decide) (by decide)).2.2.2.2.2.2⟩

/-- C2: for every valid public ASN, GetInvalid on a never-initialized cache
(nil map) fails with the distinct cache-not-initialized error and issues no
request; after a successful GetInvalids load it is a pure in-memory map
lookup — a possibly empty prefix list, no error, and no request issued. -/
theorem getInvalid_cache_contract (c c' : Client) (net : Net) (asn : Int)
    (log : List (List String))
    (hasn : bogons.ValidPublicASN (goUint32 asn) = true) :
    (c.Invalids = none →
      c.GetInvalid asn = ((none, false, some .invalidsEmpty), [])) ∧
    (c.GetInvalids net = ((c', none), log) →
      c'.Invalids.isSome = true ∧
      c'.GetInvalid asn =
        ((goMapLookup c'.Invalids asn, (goMapLookup c'.Invalids asn).isSome,
          none), [])) := by
  constructor
  · intro hnil
    simp [Client.GetInvalid, hasn, hnil]
  · intro hload
    have hsome : c'.Invalids.isSome = true := by
      unfold Client.GetInvalids at hload
      rcases hnet : net ["invalids"] with e | resp <;>
        simp [Client.getRequest, hnet] at hload
      · exact hload.1.1 ▸ rfl
    refine ⟨hsome, ?_⟩
    rcases hm : c'.Invalids with _ | m
    · simp [hm] at hsome
    · simp [Client.GetInvalid, hasn, hm, goMapLookup]
      rcases assocLookup m asn with _ | val <;> simp

/-- C2 witness: ASN 13335 is valid; on the fresh client the lookup fails
with the cache-not-initialized error and no request, and after a successful
(empty) bulk load it answers from memory with no request. -/
theorem getInvalid_cache_contract_witness :
    bogons.ValidPublicASN (goUint32 13335) = true ∧
    NewBGPClient.GetInvalid 13335 = ((none, false, some .invalidsEmpty), []) ∧
    Client.GetInvalid ⟨"", none, some []⟩ 13335 = ((none, false, none), []) :=
  ⟨by decide,
   (getInvalid_cache_contract NewBGPClient ⟨"", none, some []⟩ blankNet 13335
      [["invalids"]] (by decide)).1 rfl,
   ((getInvalid_cache_contract NewBGPClient ⟨"", none, some []⟩ blankNet 13335
      [["invalids"]] (by decide)).2 rfl).2⟩

/-- C3 counterexample: with the name cache holding exactly one entry — the
queried ASN itself, mapped to its name — GetASName does not answer from the
cache: it issues a /asname request (nonempty log) and returns the
environment's answer, not the cached name.  This refutes the claim that a
cache with entries is always consulted without any network call:
`len(c.ASNames) > 1` leaves the one-entry cache unused. -/
theorem getASName_one_entry_cache_not_consulted :
    Client.GetASName ⟨"", some [(13335, "CLOUDFLARENET")], none⟩ blankNet 13335 =
      (("", false, none), [["asname", "13335"]]) := by decide

/-- C3 amended: for every valid public ASN, GetASName consults the name
cache exactly when it holds more than one entry: it then returns the cached
name, or an explicit not-found when the ASN is absent, with no request
issued; with at most one entry (in particular a never-loaded cache) it
instead issues a single targeted /asname request. -/
theorem getASName_cache_contract (c : Client) (net : Net) (asn : Int)
    (hasn : bogons.ValidPublicASN (goUint32 asn) = true) :
    (goMapLen c.ASNames > 1 →
      c.GetASName net asn =
        (((goMapLookup c.ASNames asn).getD "",
          (goMapLookup c.ASNames asn).isSome, none), [])) ∧
    (goMapLen c.ASNames ≤ 1 →
      (c.GetASName net asn).2 = [["asname", toString asn]]) := by
  constructor
  · intro hlen
    unfold Client.GetASName
    rw [if_neg (by simp [hasn]), if_pos hlen]
    rcases h : goMapLookup c.ASNames asn with _ | name <;> simp [h]
  · intro hlen
    have hno : ¬ goMapLen c.ASNames > 1 := by omega
    unfold Client.GetASName Client.getRequest
    rw [if_neg (by simp [hasn]), if_neg hno]
    rcases net ["asname", toString asn] with e | resp
    · rfl
    · dsimp only
      split <;> rfl

/-- C3 amended witness: with two cached entries the cached name comes back
with no request; on a fresh client the same ASN goes to the network with a
single /asname request. -/
theorem getASName_cache_contract_witness :
    bogons.ValidPublicASN (goUint32 13335) = true ∧
    Client.GetASName ⟨"", some [(13335, "CLOUDFLARENET"), (15169, "GOOGLE")], none⟩
        blankNet 13335 = (("CLOUDFLARENET", true, none), []) ∧
    (NewBGPClient.GetASName blankNet 13335).2 = [["asname", toString (13335 : Int)]] :=
  ⟨by decide,
   ((getASName_cache_contract ⟨"", some [(13335, "CLOUDFLARENET"), (15169, "GOOGLE")], none⟩
      blankNet 13335 (by decide)).1 (by decide)).trans (by decide),
   (getASName_cache_contract NewBGPClient blankNet 13335 (by decide)).2 (by decide)⟩

/-- C5: for every successfully decoded response whose existence flag is
false, the four IP lookups return the explicit not-found result — zero
value, exists false, nil error — without parsing the envelope fields; the
nil error distinguishes not-found from every failure class. -/
theorem exists_false_not_found (c : Client) (net : Net) (ip : String)
    (resp : response)
    (hip : bogons.ValidPublicIP ip = true)
    (hex : resp.Data.Exists = false) :
    (net ["route", goParseIPString ip] = .ok resp →
      c.GetRoute net ip = ((none, false, none), [["route", goParseIPString ip]])) ∧
    (net ["origin", goParseIPString ip] = .ok resp →
      c.GetOrigin net ip = ((0, false, none), [["origin", goParseIPString ip]])) ∧
    (net ["aspath", goParseIPString ip] = .ok resp →
      c.GetASPath net ip =
        ((none, none, false, none), [["aspath", goParseIPString ip]])) ∧
    (net ["roa", goParseIPString ip] = .ok resp →
      c.GetROA net ip = (("", false, none), [["roa", goParseIPString ip]])) := by
  refine ⟨fun h => ?_, fun h => ?_, fun h => ?_, fun h => ?_⟩ <;>
    simp [Client.GetRoute, Client.GetOrigin, Client.GetASPath, Client.GetROA,
      Client.getRequest, hip, h, getExistsFromResponse, hex]

/-- C5 witness: querying 1.1.1.1 in an environment answering with the blank
(exists-false) envelope gives the not-found results with nil errors. -/
theorem exists_false_not_found_witness :
    bogons.ValidPublicIP "1.1.1.1" = true ∧
    blankResponse.Data.Exists = false ∧
    NewBGPClient.GetRoute blankNet "1.1.1.1" =
      ((none, false, none), [["route", goParseIPString "1.1.1.1"]]) ∧
    NewBGPClient.GetROA blankNet "1.1.1.1" =
      (("", false, none), [["roa", goParseIPString "1.1.1.1"]]) :=
  ⟨by decide, rfl,
   (exists_false_not_found NewBGPClient blankNet "1.1.1.1" blankResponse
      (by decide) rfl).1 rfl,
   (exists_false_not_found NewBGPClient blankNet "1.1.1.1" blankResponse
      (by decide) rfl).2.2.2 rfl⟩

/-- Every Atoi result is the default `(0, false)`, a clamped 64-bit extreme
with the false flag, or a success. -/
theorem goAtoi_shape (v : String) :
    goAtoi v = (0, false) ∨ goAtoi v = (2 ^ 63 - 1, false) ∨
    goAtoi v = (-(2 ^ 63), false) ∨ (goAtoi v).2 = true := by
  unfold goAtoi
  rcases v.data with _ | ⟨ch, rest⟩
  · left; rfl
  · dsimp only
    rcases decNat? (if ch = '-' ∨ ch = '+' then rest else ch :: rest) with _ | n
    · left; rfl
    · dsimp only
      split_ifs <;> simp

/-- An Atoi call whose success flag is false produced either the default 0
(syntactically malformed input) or a clamped 64-bit extreme (overflow). -/
theorem goAtoi_failed_default (v : String) (h : (goAtoi v).2 = false) :
    (goAtoi v).1 = 0 ∨ (goAtoi v).1 = 2 ^ 63 - 1 ∨ (goAtoi v).1 = -(2 ^ 63) := by
  rcases goAtoi_shape v with h0 | h0 | h0 | h0
  · left; rw [h0]
  · right; left; rw [h0]
  · right; right; rw [h0]
  · rw [h0] at h
    simp at h

/-- C6: the AS-path and AS-SET arrays are parsed element by element with the
Atoi error discarded: the outputs are exactly the elementwise parses, their
lengths always equal the input array lengths, an element that fails to parse
contributes the Atoi default rather than aborting, and GetASPath succeeds
(nil error) regardless of unparsable entries. -/
theorem aspath_best_effort (c : Client) (net : Net) (ip : String)
    (resp : response)
    (hip : bogons.ValidPublicIP ip = true)
    (hnet : net ["aspath", goParseIPString ip] = .ok resp)
    (hex : resp.Data.Exists = true) :
    c.GetASPath net ip =
      ((some (getASPathFromResponse resp).1, some (getASPathFromResponse resp).2,
        true, none), [["aspath", goParseIPString ip]]) ∧
    (getASPathFromResponse resp).1 = resp.Data.ASPath.map (fun v => (goAtoi v).1) ∧
    (getASPathFromResponse resp).1.length = resp.Data.ASPath.length ∧
    (getASPathFromResponse resp).2.length = resp.Data.ASSet.length ∧
    (∀ v, (goAtoi v).2 = false →
      (goAtoi v).1 = 0 ∨ (goAtoi v).1 = 2 ^ 63 - 1 ∨ (goAtoi v).1 = -(2 ^ 63)) := by
  refine ⟨?_, ?_, ?_, ?_, fun v h => goAtoi_failed_default v h⟩
  · simp [Client.GetASPath, Client.getRequest, hip, hnet, getExistsFromResponse,
      hex, getASPathFromResponse]
  · unfold getASPathFromResponse
    by_cases hset : resp.Data.ASSet.length > 0 <;> simp [hset]
  · unfold getASPathFromResponse
    by_cases hset : resp.Data.ASSet.length > 0 <;> simp [hset]
  · unfold getASPathFromResponse
    by_cases hset : resp.Data.ASSet.length > 0 <;> simp [hset]
    omega

/-- C6 witness: a path containing the unparsable entry "junk" still yields a
successful result of the same length, with 0 in place of the bad entry. -/
theorem aspath_best_effort_witness :
    bogons.ValidPublicIP "1.1.1.1" = true ∧
    aspathResponse.Data.Exists = true ∧
    getASPathFromResponse aspathResponse = ([13335, 0, 15169], []) ∧
    NewBGPClient.GetASPath aspathNet "1.1.1.1" =
      ((some (getASPathFromResponse aspathResponse).1,
        some (getASPathFromResponse aspathResponse).2, true, none),
       [["aspath", goParseIPString "1.1.1.1"]]) :=
  ⟨by decide, rfl, by decide,
   (aspath_best_effort NewBGPClient aspathNet "1.1.1.1" aspathResponse
      (by decide) rfl rfl).1⟩

/-- `parseCIDRList` fails exactly when some element of the list is a
malformed CIDR string. -/
theorem parseCIDRList_error_exists (l : List String) :
    (∃ s, parseCIDRList l = Except.error s) ↔
      ∃ p ∈ l, ∃ s, goParseCIDR p = Except.error s := by
  induction l with
  | nil => simp [parseCIDRList]
  | cons p rest ih =>
    simp only [parseCIDRList]
    rcases h : goParseCIDR p with s | ipnet
    · simp [h]
    · rcases h2 : parseCIDRList rest with s | lres <;>
        simp [h, h2] at ih ⊢ <;> simpa using ih

/-- The invalids population loop fails exactly when some entry holds a
malformed prefix list, and any error it reports is a CIDR parse error. -/
theorem loadInvalids_error_exists (l : List Invalids)
    (m : List (Int × List IPNet)) :
    ((∃ e, (loadInvalids m l).2 = some e) ↔
      ∃ v ∈ l, ∃ s, parseCIDRList v.Prefixes = Except.error s) ∧
    (∀ e, (loadInvalids m l).2 = some e → ∃ s, e = .cidrParseError s) := by
  induction l generalizing m with
  | nil => simp [loadInvalids]
  | cons v rest ih =>
    simp only [loadInvalids]
    rcases h : parseCIDRList v.Prefixes with s | lres
    · simp [h]
    · simpa [h] using ih (assocInsert m v.ASN lres)

/-- C7: a response containing a malformed CIDR string makes the operation
fail hard: GetRoute surfaces the parse error of its route string, GetSourced
the parse error of its prefix list (which fails exactly when some sourced
prefix is malformed), and GetInvalids reports a CIDR parse error whenever
some entry holds a malformed prefix. -/
theorem malformed_cidr_hard_error (c : Client) (net : Net) (ip : String)
    (asn : Int) (resp : response) (s : String)
    (hip : bogons.ValidPublicIP ip = true)
    (hasn : bogons.ValidPublicASN (goUint32 asn) = true) :
    (net ["route", goParseIPString ip] = .ok resp → resp.Data.Exists = true →
      goParseCIDR resp.Data.Route = .error s →
      c.GetRoute net ip =
        ((none, true, some (.cidrParseError s)), [["route", goParseIPString ip]])) ∧
    (net ["sourced", toString asn] = .ok resp →
      parseCIDRList resp.Data.Sourced.Prefixes = .error s →
      c.GetSourced net asn =
        ((none, 0, 0, some (.cidrParseError s)), [["sourced", toString asn]])) ∧
    ((∃ p ∈ resp.Data.Sourced.Prefixes, ∃ s', goParseCIDR p = Except.error s') →
      ∃ s', parseCIDRList resp.Data.Sourced.Prefixes = Except.error s') ∧
    (net ["invalids"] = .ok resp →
      (∃ v ∈ resp.Data.Invalids, ∃ s', parseCIDRList v.Prefixes = Except.error s') →
      ∃ s', (c.GetInvalids net).1.2 = some (.cidrParseError s')) := by
  refine ⟨fun hnet hex hcidr => ?_, fun hnet hcidr => ?_, fun hbad => ?_,
    fun hnet hbad => ?_⟩
  · simp [Client.GetRoute, Client.getRequest, hip, hnet, getExistsFromResponse,
      hex, hcidr]
  · simp [Client.GetSourced, Client.getRequest, hasn, hnet, hcidr]
  · exact (parseCIDRList_error_exists resp.Data.Sourced.Prefixes).2 hbad
  · have hload := loadInvalids_error_exists resp.Data.Invalids []
    rcases hload.1.2 hbad with ⟨e, he⟩
    rcases hload.2 e he with ⟨s', hs'⟩
    refine ⟨s', ?_⟩
    simp only [Client.GetInvalids, Client.getRequest, hnet]
    rw [← hs', ← he]

/-- C7 witness: a route answer of "not-a-cidr" makes GetRoute fail with the
parse error, and a sourced prefix list containing "bad" fails GetSourced. -/
theorem malformed_cidr_hard_error_witness :
    bogons.ValidPublicIP "1.1.1.1" = true ∧
    goParseCIDR cidrBadResponse.Data.Route = .error "not-a-cidr" ∧
    NewBGPClient.GetRoute cidrBadNet "1.1.1.1" =
      ((none, true, some (.cidrParseError "not-a-cidr")),
       [["route", goParseIPString "1.1.1.1"]]) ∧
    NewBGPClient.GetSourced cidrBadNet 13335 =
      ((none, 0, 0, some (.cidrParseError "bad")), [["sourced", toString (13335 : Int)]]) :=
  ⟨by decide, by decide,
   (malformed_cidr_hard_error NewBGPClient cidrBadNet "1.1.1.1" 13335
      cidrBadResponse "not-a-cidr" (by decide) (by decide)).1 rfl rfl (by decide),
   (malformed_cidr_hard_error NewBGPClient cidrBadNet "1.1.1.1" 13335
      cidrBadResponse "bad" (by decide) (by decide)).2.1 rfl (by decide)⟩

/-- C8: the bulk loads are not atomic: each replaces its cache with a fresh
empty map before the fetch, so a failed fetch leaves the cache empty (old
contents discarded) and a failed mid-load parse leaves it partially
populated; consequently, after a failed GetInvalids, GetInvalid no longer
reports the cache-not-initialized error but answers from the emptied map. -/
theorem bulk_load_not_atomic (c : Client) (net : Net) (e : GoError)
    (asn : Int) (resp : response)
    (hasn : bogons.ValidPublicASN (goUint32 asn) = true) :
    (net ["asnames"] = .error e →
      c.GetASNames net = (({ c with ASNames := some [] }, some e), [["asnames"]])) ∧
    (net ["invalids"] = .error e →
      c.GetInvalids net = (({ c with Invalids := some [] }, some e), [["invalids"]])) ∧
    (net ["invalids"] = .ok resp →
      ((c.GetInvalids net).1.1).Invalids =
        some (loadInvalids [] resp.Data.Invalids).1 ∧
      (c.GetInvalids net).1.2 = (loadInvalids [] resp.Data.Invalids).2) ∧
    ((c.GetInvalids net).1.1).Invalids.isSome = true ∧
    (net ["invalids"] = .error e →
      ((c.GetInvalids net).1.1).GetInvalid asn = ((none, false, none), [])) := by
  refine ⟨fun hnet => ?_, fun hnet => ?_, fun hnet => ?_, ?_, fun hnet => ?_⟩
  · simp [Client.GetASNames, Client.getRequest, hnet]
  · simp [Client.GetInvalids, Client.getRequest, hnet]
  · simp [Client.GetInvalids, Client.getRequest, hnet]
  · rcases hnet : net ["invalids"] with e' | resp' <;>
      simp [Client.GetInvalids, Client.getRequest, hnet]
  · simp [Client.GetInvalids, Client.getRequest, hnet, Client.GetInvalid, hasn,
      assocLookup]

/-- C8 witness: a client whose invalids cache held an entry loses it on a
failed GetInvalids — the cache comes back empty but initialized — and the
subsequent GetInvalid for a valid ASN succeeds with a nil error instead of
reporting the cache-not-initialized error. -/
theorem bulk_load_not_atomic_witness :
    downNet ["invalids"] = .error (.getRequestError "connection refused") ∧
    Client.GetInvalids ⟨"", none, some [(15169, [⟨32, 134744064, 24⟩])]⟩ downNet =
      ((⟨"", none, some []⟩, some (.getRequestError "connection refused")),
       [["invalids"]]) ∧
    Client.GetInvalid ⟨"", none, some []⟩ 13335 = ((none, false, none), []) :=
  ⟨rfl,
   (bulk_load_not_atomic ⟨"", none, some [(15169, [⟨32, 134744064, 24⟩])]⟩ downNet
      (.getRequestError "connection refused") 13335 blankResponse (by decide)).2.1 rfl,
   (bulk_load_not_atomic ⟨"", none, some [(15169, [⟨32, 134744064, 24⟩])]⟩ downNet
      (.getRequestError "connection refused") 13335 blankResponse (by decide)).2.2.2.2 rfl⟩

/-- C9: with an existing (exists-true) decoded response, GetOrigin errs
exactly when the decoded origin number is 0, the error being the unparsable
origin one; a successful call therefore returns a nonzero origin. -/
theorem origin_error_iff_zero (c : Client) (net : Net) (ip : String)
    (resp : response)
    (hip : bogons.ValidPublicIP ip = true)
    (hnet : net ["origin", goParseIPString ip] = .ok resp)
    (hex : resp.Data.Exists = true) :
    ((c.GetOrigin net ip).1.2.2 = some .unparsableOrigin ↔
      getOriginFromResponse resp = 0) ∧
    ((c.GetOrigin net ip).1.2.2 = none →
      (c.GetOrigin net ip).1.1 = getOriginFromResponse resp ∧
      (c.GetOrigin net ip).1.1 ≠ 0 ∧ (c.GetOrigin net ip).1.2.1 = true) := by
  have hun : c.GetOrigin net ip =
      (if getOriginFromResponse resp = 0
        then ((0, false, some .unparsableOrigin), [["origin", goParseIPString ip]])
        else ((getOriginFromResponse resp, true, none),
          [["origin", goParseIPString ip]])) := by
    simp [Client.GetOrigin, Client.getRequest, hip, hnet, getExistsFromResponse,
      hex, getOriginFromResponse]
  by_cases h0 : getOriginFromResponse resp = 0 <;>
    simp [hun, h0]

/-- C9 witness: an exists-true answer with origin 0 errs with the
unparsable-origin error; one with origin 13335 succeeds with that origin. -/
theorem origin_error_iff_zero_witness :
    bogons.ValidPublicIP "1.1.1.1" = true ∧
    getOriginFromResponse zeroOriginResponse = 0 ∧
    (NewBGPClient.GetOrigin zeroOriginNet "1.1.1.1").1.2.2 =
      some .unparsableOrigin ∧
    getOriginFromResponse originResponse = 13335 ∧
    (NewBGPClient.GetOrigin originNet "1.1.1.1").1.1 = 13335 := by
  refine ⟨by decide, rfl, ?_, rfl, ?_⟩
  · exact (origin_error_iff_zero NewBGPClient zeroOriginNet "1.1.1.1"
      zeroOriginResponse (by decide) rfl rfl).1.2 rfl
  · have h := (origin_error_iff_zero NewBGPClient originNet "1.1.1.1"
      originResponse (by decide) rfl rfl).2 (by decide)
    simpa using h.1

/-- For a valid public ASN, GetASName never answers with the immediate
validation rejection (the empty log separates the two network branches from
it, the nil error the two cache branches). -/
theorem getASName_valid_not_rejected (c : Client) (net : Net) (asn : Int)
    (h : bogons.ValidPublicASN (goUint32 asn) = true) :
    c.GetASName net asn ≠ (("", false, some .invalidASN), []) := by
  unfold Client.GetASName Client.getRequest
  rw [if_neg (by simp [h])]
  split
  · rcases goMapLookup c.ASNames asn with _ | name <;> simp
  · rcases net ["asname", toString asn] with e | resp
    · simp
    · dsimp only
      split <;> simp

/-- For a valid public ASN, GetInvalid never answers with the immediate
validation rejection. -/
theorem getInvalid_valid_not_rejected (c : Client) (asn : Int)
    (h : bogons.ValidPublicASN (goUint32 asn) = true) :
    c.GetInvalid asn ≠ ((none, false, some .invalidASN), []) := by
  unfold Client.GetInvalid
  rw [if_neg (by simp [h])]
  rcases c.Invalids with _ | m
  · simp
  · dsimp only
    rcases assocLookup m asn with _ | val <;> simp

/-- For a valid public ASN, GetSourced never answers with the immediate
validation rejection. -/
theorem getSourced_valid_not_rejected (c : Client) (net : Net) (asn : Int)
    (h : bogons.ValidPublicASN (goUint32 asn) = true) :
    c.GetSourced net asn ≠ ((none, 0, 0, some .invalidASN), []) := by
  unfold Client.GetSourced Client.getRequest
  rw [if_neg (by simp [h])]
  rcases net ["sourced", toString asn] with e | resp
  · simp
  · dsimp only
    rcases parseCIDRList resp.Data.Sourced.Prefixes with s | l <;> simp

/-- C10: ASN validation in GetASName, GetInvalid and GetSourced depends only
on the argument modulo 2^32: congruent arguments (negative ones included)
truncate to the same uint32, validate identically, and are rejected by the
three ASN lookups identically; in particular 2^32 + 13335 truncates to 13335
and passes validation. -/
theorem asn_validation_mod_2_32 (c : Client) (net : Net) (a b : Int)
    (hmod : a % (2 ^ 32 : Int) = b % (2 ^ 32 : Int)) :
    goUint32 a = goUint32 b ∧
    bogons.ValidPublicASN (goUint32 a) = bogons.ValidPublicASN (goUint32 b) ∧
    (c.GetASName net a = (("", false, some .invalidASN), []) ↔
      c.GetASName net b = (("", false, some .invalidASN), [])) ∧
    (c.GetInvalid a = ((none, false, some .invalidASN), []) ↔
      c.GetInvalid b = ((none, false, some .invalidASN), [])) ∧
    (c.GetSourced net a = ((none, 0, 0, some .invalidASN), []) ↔
      c.GetSourced net b = ((none, 0, 0, some .invalidASN), [])) ∧
    goUint32 ((2 : Int) ^ 32 + 13335) = 13335 ∧
    bogons.ValidPublicASN (goUint32 ((2 : Int) ^ 32 + 13335)) = true := by
  have hu : goUint32 a = goUint32 b := by unfold goUint32; rw [hmod]
  have hv : bogons.ValidPublicASN (goUint32 a) =
      bogons.ValidPublicASN (goUint32 b) := by rw [hu]
  refine ⟨hu, hv, ?_, ?_, ?_, by decide, by decide⟩
  · rcases hval : bogons.ValidPublicASN (goUint32 a) with _ | _
    · have hfb : bogons.ValidPublicASN (goUint32 b) = false := hv ▸ hval
      constructor <;> intro _
      · simp [Client.GetASName, hfb]
      · simp [Client.GetASName, hval]
    · have hvb : bogons.ValidPublicASN (goUint32 b) = true := hv ▸ hval
      constructor <;> intro hcontra
      · exact absurd hcontra (getASName_valid_not_rejected c net a hval)
      · exact absurd hcontra (getASName_valid_not_rejected c net b hvb)
  · rcases hval : bogons.ValidPublicASN (goUint32 a) with _ | _
    · have hfb : bogons.ValidPublicASN (goUint32 b) = false := hv ▸ hval
      constructor <;> intro _
      · simp [Client.GetInvalid, hfb]
      · simp [Client.GetInvalid, hval]
    · have hvb : bogons.ValidPublicASN (goUint32 b) = true := hv ▸ hval
      constructor <;> intro hcontra
      · exact absurd hcontra (getInvalid_valid_not_rejected c a hval)
      · exact absurd hcontra (getInvalid_valid_not_rejected c b hvb)
  · rcases hval : bogons.ValidPublicASN (goUint32 a) with _ | _
    · have hfb : bogons.ValidPublicASN (goUint32 b) = false := hv ▸ hval
      constructor <;> intro _
      · simp [Client.GetSourced, hfb]
      · simp [Client.GetSourced, hval]
    · have hvb : bogons.ValidPublicASN (goUint32 b) = true := hv ▸ hval
      constructor <;> intro hcontra
      · exact absurd hcontra (getSourced_valid_not_rejected c net a hval)
      · exact absurd hcontra (getSourced_valid_not_rejected c net b hvb)

/-- C10 witness: 2^32 + 13335 and 13335 are congruent modulo 2^32, truncate
to the same uint32, validate identically, and the out-of-range value passes
validation as 13335 does. -/
theorem asn_validation_mod_2_32_witness :
    ((2 : Int) ^ 32 + 13335) % 2 ^ 32 = (13335 : Int) % 2 ^ 32 ∧
    goUint32 ((2 : Int) ^ 32 + 13335) = goUint32 13335 ∧
    bogons.ValidPublicASN (goUint32 ((2 : Int) ^ 32 + 13335)) =
      bogons.ValidPublicASN (goUint32 13335) ∧
    bogons.ValidPublicASN (goUint32 ((2 : Int) ^ 32 + 13335)) = true :=
  ⟨by decide,
   (asn_validation_mod_2_32 NewBGPClient blankNet ((2 : Int) ^ 32 + 13335) 13335
      (by decide)).1,
   (asn_validation_mod_2_32 NewBGPClient blankNet ((2 : Int) ^ 32 + 13335) 13335
      (by decide)).2.1,
   (asn_validation_mod_2_32 NewBGPClient blankNet ((2 : Int) ^ 32 + 13335) 13335
      (by decide)).2.2.2.2.2.2⟩

end BGPStuff
